import Mathlib

/-!
Shallow embedding of `src/server.js` (the session-auth variant, lines 1-269):
a small Express application exposing read-only lookup endpoints over two
MySQL tables (`family_groups`, `family_members`), gated by an optional
process-wide basic-auth filter and a cookie-session login.

Modelling conventions:
* The database is an explicit value (`DB`): the `pool` global of line 74 is
  an `Option DB` (`none` = pool not connected).  A failing `pool.execute`
  is an explicit boolean `queryFails` (the `catch` branch of each handler).
* SQL is given its documented meaning over `DB`'s lists:
  `ORDER BY` is sorting by the named keys; `LIKE` with the spliced
  parameter `%q%` is MySQL pattern matching under the case-insensitive
  default collation, with `%` (any sequence) and `_` (exactly one
  character) occurring inside the unescaped `q` interpreted as wildcards
  (the escape character `\` is not modelled, so statements equating the
  match with plain substring containment assume `q` free of `%`, `_` and
  `\`); `JOIN ... USING(family_id)` is the filtered cross product;
  `LIMIT n` is `List.take n`.
* Express-session's store is an association list from an opaque token
  (the cookie's session id) to the session's `user` record; `req.session`
  on a request is the lookup of the request's cookie token.
* HTTP requests and responses are explicit data; route matching is modelled
  as exact (case-sensitive) string matching on `req.path`, and the layers
  run in the source's registration order.
* JavaScript string `.trim()` and falsiness (`!s`), `indexOf(...) !== -1`,
  and `toLowerCase` are re-implemented over `List Char` so that every
  definition evaluates inside the kernel.
-/

/-! ## Character/string helpers (JS string semantics) -/

/-- Does the second list start with the first? (helper for substring search). -/
def isPre : List Char → List Char → Bool
  | [], _ => true
  | _ :: _, [] => false
  | a :: as, b :: bs => a == b && isPre as bs

/-- Does the second list contain the first as a contiguous sublist? -/
def hasSub (needle : List Char) : List Char → Bool
  | [] => isPre needle []
  | c :: cs => isPre needle (c :: cs) || hasSub needle cs

/-- JS `hay.indexOf(needle) !== -1` (case-sensitive substring test). -/
def containsSubstr (needle hay : String) : Bool :=
  hasSub needle.data hay.data

/-- JS `s.toLowerCase()` restricted to ASCII case mapping. -/
def lowerStr (s : String) : String :=
  String.mk (s.data.map Char.toLower)

/-- Case-insensitive substring containment: the spec sentence's reading of
the name filter ("contains `q` case-insensitively").  Kept to be compared
with the faithful `LIKE` matcher below: the two agree exactly when the
query is free of the LIKE wildcard and escape characters. -/
def ciContains (needle hay : String) : Bool :=
  containsSubstr (lowerStr needle) (lowerStr hay)

/-- MySQL `LIKE` pattern matching, case-insensitive under the default
collation (characters are compared case-folded): `%` matches any
sequence of characters, `_` matches exactly one character, every other
pattern character matches itself.  The escape character `\` is not
modelled: theorems equating a match with substring containment assume
the spliced query free of `%`, `_` and `\`. -/
def likeMatchCI : List Char → List Char → Bool
  | [], s => s.isEmpty
  | p :: ps, s =>
    if p == '%' then (List.tails s).any fun s2 => likeMatchCI ps s2
    else if p == '_' then
      match s with
      | [] => false
      | _ :: s2 => likeMatchCI ps s2
    else
      match s with
      | [] => false
      | c :: s2 => p.toLower == c.toLower && likeMatchCI ps s2

/-- Meaning of `column LIKE ?` with the parameter built as `` `%${q}%` ``
(lines 210-213 and 228-234): the query string is spliced into the pattern
unescaped, so wildcard characters inside `q` are interpreted by the
engine. -/
def likeParamContains (q hay : String) : Bool :=
  likeMatchCI ('%' :: (q.data ++ ['%'])) hay.data

/-- Is the query free of the LIKE wildcard and escape characters?  For
such queries `LIKE '%q%'` is exactly case-insensitive substring
containment. -/
def likeWildcardFree (q : String) : Bool :=
  q.data.all fun c => !(c == '%') && !(c == '_') && !(c == '\\')

/-- JS `s.trim()` (whitespace stripped from both ends). -/
def jsTrim (s : String) : String :=
  String.mk (((s.data.dropWhile Char.isWhitespace).reverse.dropWhile
      Char.isWhitespace).reverse)

/-- `path.startsWith(pre)` on strings. -/
def startsWithStr (pre s : String) : Bool :=
  isPre pre.data s.data

/-- JS `str.split(sep)` for a one-character separator. -/
def splitOnChar (sep : Char) : List Char → List (List Char)
  | [] => [[]]
  | c :: cs =>
    match splitOnChar sep cs with
    | [] => [[]]
    | f :: rest => if c == sep then [] :: f :: rest else (c :: f) :: rest

/-- JS falsiness of an optional string field: absent (`undefined`) or `''`. -/
def jsFalsyStr : Option String → Bool
  | none => true
  | some s => s == ""

/-! ## Sort orders used by the SQL `ORDER BY` clauses -/

/-- Ascending order on one numeric key (`ORDER BY key`). -/
def keyLe {α : Type} (k : α → Nat) (a b : α) : Prop := k a ≤ k b

instance {α : Type} (k : α → Nat) : DecidableRel (keyLe k) :=
  fun a b => inferInstanceAs (Decidable (k a ≤ k b))

instance {α : Type} (k : α → Nat) : IsTotal α (keyLe k) :=
  ⟨fun a b => Nat.le_total (k a) (k b)⟩

instance {α : Type} (k : α → Nat) : IsTrans α (keyLe k) :=
  ⟨fun _ _ _ => Nat.le_trans⟩

/-- Lexicographic ascending order on two numeric keys
(`ORDER BY key1, key2`). -/
def lexLe {α : Type} (k1 k2 : α → Nat) (a b : α) : Prop :=
  k1 a < k1 b ∨ (k1 a = k1 b ∧ k2 a ≤ k2 b)

instance {α : Type} (k1 k2 : α → Nat) : DecidableRel (lexLe k1 k2) :=
  fun a b =>
    inferInstanceAs (Decidable (k1 a < k1 b ∨ (k1 a = k1 b ∧ k2 a ≤ k2 b)))

instance {α : Type} (k1 k2 : α → Nat) : IsTotal α (lexLe k1 k2) :=
  ⟨fun a b => by
    rcases Nat.lt_trichotomy (k1 a) (k1 b) with h | h | h
    · exact Or.inl (Or.inl h)
    · rcases Nat.le_total (k2 a) (k2 b) with h2 | h2
      · exact Or.inl (Or.inr ⟨h, h2⟩)
      · exact Or.inr (Or.inr ⟨h.symm, h2⟩)
    · exact Or.inr (Or.inl h)⟩

instance {α : Type} (k1 k2 : α → Nat) : IsTrans α (lexLe k1 k2) :=
  ⟨fun a b c hab hbc => by
    rcases hab with h1 | ⟨h1, h1'⟩ <;> rcases hbc with h2 | ⟨h2, h2'⟩
    · exact Or.inl (Nat.lt_trans h1 h2)
    · exact Or.inl (h2 ▸ h1)
    · exact Or.inl (h1 ▸ h2)
    · exact Or.inr ⟨h1.trans h2, Nat.le_trans h1' h2'⟩⟩

/-! ## Data model: the two tables (§ DB schema used by the queries) -/

/-- One row of `family_groups` (columns named in the `SELECT` of
lines 156-157). -/
structure Family where
  family_id : Nat
  family_sr_no : String
  family_name : String
  head_of_family : String
  community_name : String
  zone_no : String
  contact_phone : String
deriving DecidableEq

/-- One row of `family_members` (the columns the handlers inspect:
`family_id` for the join, `sr_no_in_family` for ordering, `full_name`
for the name search; other columns are irrelevant to every claim). -/
structure Member where
  family_id : Nat
  sr_no_in_family : Nat
  full_name : String
deriving DecidableEq

/-- The database reachable through the pool. -/
structure DB where
  families : List Family
  members : List Member
deriving DecidableEq

/-- `JOIN family_groups USING(family_id)` (lines 171-173 / 207-209):
each member row paired with every family row sharing its `family_id`. -/
def joinedRows (db : DB) : List (Member × Family) :=
  db.members.flatMap fun m =>
    (db.families.filter fun f => f.family_id == m.family_id).map fun f => (m, f)

/-! ## Response envelope of one API handler -/

/-- Outcome of one JSON API handler: `ok` is an HTTP 200 with the payload,
`err s m` is `res.status(s).json({error: m})`. -/
inductive Resp (α : Type) where
  | ok (payload : α)
  | err (status : Nat) (msg : String)
deriving DecidableEq

/-- The HTTP status an outcome is sent with (`res.json` defaults to 200). -/
def Resp.statusCode {α : Type} : Resp α → Nat
  | .ok _ => 200
  | .err s _ => s

/-! ## The five query handlers (lines 152-241) -/

/-- Rows of `GET /api/allFamilies`: `SELECT ... FROM family_groups ORDER BY
family_id` (lines 155-158). -/
def allFamiliesQuery (db : DB) : List Family :=
  List.insertionSort (keyLe Family.family_id) db.families

/-- Handler of `GET /api/allFamilies` (lines 152-164). -/
def allFamilies (pool : Option DB) (queryFails : Bool) : Resp (List Family) :=
  match pool with
  | none => .err 500 "DB not connected"
  | some db =>
    if queryFails then .err 500 "server error"
    else .ok (allFamiliesQuery db)

/-- Rows of `GET /api/allMembers`: the join ordered by
`fg.family_id, fm.sr_no_in_family` (lines 170-175). -/
def allMembersQuery (db : DB) : List (Member × Family) :=
  List.insertionSort
    (lexLe (fun r => r.2.family_id) (fun r => r.1.sr_no_in_family))
    (joinedRows db)

/-- Handler of `GET /api/allMembers` (lines 167-181). -/
def allMembers (pool : Option DB) (queryFails : Bool) :
    Resp (List (Member × Family)) :=
  match pool with
  | none => .err 500 "DB not connected"
  | some db =>
    if queryFails then .err 500 "server error"
    else .ok (allMembersQuery db)

/-- The two queries of `GET /api/familyBySr` once `sr` is validated
(lines 189-193): `SELECT * FROM family_groups WHERE family_sr_no = ? LIMIT 1`
then, on a hit, `SELECT * FROM family_members WHERE family_id = ? ORDER BY
sr_no_in_family`. -/
def familyBySrCore (db : DB) (sr : String) : Option (Family × List Member) :=
  match db.families.filter (fun f => f.family_sr_no == sr) with
  | [] => none
  | f :: _ =>
    some (f, List.insertionSort (keyLe Member.sr_no_in_family)
      (db.members.filter fun m => m.family_id == f.family_id))

/-- Handler of `GET /api/familyBySr` (lines 184-198): `ok none` is the
`{found:false}` body, `ok (some (family, members))` the
`{found:true, family, members}` body. -/
def familyBySr (pool : Option DB) (queryFails : Bool)
    (srParam : Option String) : Resp (Option (Family × List Member)) :=
  let sr := jsTrim (srParam.getD "")
  if sr == "" then .err 400 "missing sr"
  else match pool with
    | none => .err 500 "DB not connected"
    | some db =>
      if queryFails then .err 500 "server error"
      else .ok (familyBySrCore db sr)

/-- Rows of `GET /api/memberByName` once `q` is validated (lines 206-214):
the join filtered by `fm.full_name LIKE '%q%'`, ordered by
`fg.family_id, fm.sr_no_in_family`, `LIMIT 500`. -/
def memberByNameQuery (db : DB) (q : String) : List (Member × Family) :=
  (List.insertionSort
    (lexLe (fun r => r.2.family_id) (fun r => r.1.sr_no_in_family))
    ((joinedRows db).filter
      fun r => likeParamContains q r.1.full_name)).take 500

/-- Handler of `GET /api/memberByName` (lines 201-220). -/
def memberByName (pool : Option DB) (queryFails : Bool)
    (qParam : Option String) : Resp (List (Member × Family)) :=
  let q := jsTrim (qParam.getD "")
  if q == "" then .err 400 "missing q"
  else match pool with
    | none => .err 500 "DB not connected"
    | some db =>
      if queryFails then .err 500 "server error"
      else .ok (memberByNameQuery db q)

/-- Rows of `GET /api/familiesByHead` once `q` is validated (lines 228-235):
`family_groups` filtered by `head_of_family LIKE '%q%'`, ordered by
`family_id`, `LIMIT 200`. -/
def familiesByHeadQuery (db : DB) (q : String) : List Family :=
  (List.insertionSort (keyLe Family.family_id)
    (db.families.filter
      fun f => likeParamContains q f.head_of_family)).take 200

/-- Handler of `GET /api/familiesByHead` (lines 223-241). -/
def familiesByHead (pool : Option DB) (queryFails : Bool)
    (qParam : Option String) : Resp (List Family) :=
  let q := jsTrim (qParam.getD "")
  if q == "" then .err 400 "missing q"
  else match pool with
    | none => .err 500 "DB not connected"
    | some db =>
      if queryFails then .err 500 "server error"
      else .ok (familiesByHeadQuery db q)

/-! ## Sessions, login and logout (lines 60-124) -/

/-- The `req.session.user` record set by a successful login (line 105). -/
structure UserInfo where
  username : String
  role : String
deriving DecidableEq

/-- The express-session server-side store: opaque cookie token ↦ the
session's `user` record. -/
abbrev SessionStore := List (Nat × UserInfo)

/-- The session a request's cookie token resolves to. -/
def lookupSess (store : SessionStore) (tok : Nat) : Option UserInfo :=
  (store.find? fun e => e.1 == tok).map fun e => e.2

/-- Outcome of `POST /api/login`: `missingFields` is
`400 {ok:false, error:'Missing username or password'}`, `unauthorized` is
`401 {ok:false, error:'Invalid username or password'}`, `success r` is
`200 {ok:true, redirect: r}`. -/
inductive LoginRes where
  | missingFields
  | unauthorized
  | success (redirect : String)
deriving DecidableEq

/-- HTTP status of a login outcome. -/
def LoginRes.statusCode : LoginRes → Nat
  | .missingFields => 400
  | .unauthorized => 401
  | .success _ => 200

/-- Handler of `POST /api/login` (lines 98-112).  `freshTok` is the session
id express-session mints for the request's session; the missing-field test
is JS falsiness of the destructured body fields. -/
def login (store : SessionStore) (freshTok : Nat)
    (username password : Option String) : SessionStore × LoginRes :=
  if jsFalsyStr username || jsFalsyStr password then (store, .missingFields)
  else if username == some "admin" && password == some "ian.rdr4" then
    ((freshTok, ⟨"admin", "admin"⟩) :: store, .success "/")
  else (store, .unauthorized)

/-- Response of `POST /api/logout`. -/
structure LogoutResp where
  status : Nat
  ok : Bool
  clearedCookie : Bool
deriving DecidableEq

/-- Handler of `POST /api/logout` (lines 115-124).  `destroyErr` is the
store's destroy callback reporting an error (never taken by the in-memory
store); otherwise the session of the presented token is removed, the `sid`
cookie cleared and `200 {ok:true}` sent. -/
def logout (destroyErr : Bool) (store : SessionStore) (tok : Nat) :
    SessionStore × LogoutResp :=
  if destroyErr then (store, ⟨500, false, false⟩)
  else (store.filter fun e => !(e.1 == tok), ⟨200, true, true⟩)

/-! ## The session gate (lines 127-148) -/

/-- Outcome of the auth middleware: `allow` is `next()`, `deny401Json` is
`401 {error:'Not authenticated'}`, `denyRedirect t` is `res.redirect(t)`. -/
inductive GateOutcome where
  | allow
  | deny401Json
  | denyRedirect (target : String)
deriving DecidableEq

/-- The `req.session && req.session.user && req.session.user.username`
test of lines 132 and 248/259 (username truthy). -/
def isAuthed (sess : Option UserInfo) : Bool :=
  match sess with
  | some u => !(u.username == "")
  | none => false

/-- The `req.headers.accept && req.headers.accept.indexOf('application/json')
!== -1` test of line 136. -/
def jsonAccept (accept : Option String) : Bool :=
  match accept with
  | none => false
  | some a => !(a == "") && containsSubstr "application/json" a

/-- `requireAuth` (lines 127-141); `sub` is `req.path` as the middleware
sees it (the `/api` mount prefix already stripped). -/
def requireAuth (sess : Option UserInfo) (sub : String)
    (accept : Option String) : GateOutcome :=
  if sub == "/ping" then .allow
  else if isAuthed sess then .allow
  else if jsonAccept accept then .deny401Json
  else .denyRedirect "/login.html"

/-- The `/api` mount wrapper (lines 144-148): login and logout bypass
`requireAuth`. -/
def apiGate (sess : Option UserInfo) (sub : String)
    (accept : Option String) : GateOutcome :=
  if sub == "/login" || sub == "/logout" then .allow
  else requireAuth sess sub accept

/-! ## The basic-auth filter (lines 15-28) -/

/-- The basic-auth filter of lines 15-28.  `cfg` is the optional
`(BASIC_USER, BASIC_PASS)` pair; `authDecoded` is the base64-decoded
second field of the `Authorization` header when one is present (the
base64 transport of lines 22-23 is abstracted away since decoding is a
bijection on valid tokens).  `true` = `next()`, `false` =
`401 'Auth required'`. -/
def basicAuthPass (cfg : Option (String × String))
    (authDecoded : Option String) : Bool :=
  match cfg with
  | none => true
  | some (bu, bp) =>
    match authDecoded with
    | none => false
    | some d =>
      let fields := splitOnChar ':' d.data
      match fields with
      | [] => false
      | u :: rest =>
        match rest with
        | [] => false
        | p :: _ => String.mk u == bu && String.mk p == bp

/-! ## The GET request pipeline (registration order of lines 15-263) -/

/-- One GET request as the model sees it: the path, the `Accept` header,
the decoded basic-auth credential, the session cookie's token, and the
`sr`/`q` query parameters. -/
structure GetReq where
  path : String
  accept : Option String
  authDecoded : Option String
  sessionTok : Option Nat
  sr : Option String
  q : Option String
deriving DecidableEq

/-- Body of a JSON response of the pipeline. -/
inductive RespBody where
  | errMsg (msg : String)
  | pingBody (ts : Nat)
  | familiesList (rows : List Family)
  | membersList (rows : List (Member × Family))
  | familyFound (family : Family) (members : List Member)
  | familyNotFound
deriving DecidableEq

/-- A whole HTTP response of the pipeline: the basic-auth `401 'Auth
required'` text, a JSON body with its status, a redirect, or a served
file (`express.static` / `res.sendFile`). -/
inductive Response where
  | basicAuthRequired
  | json (status : Nat) (body : RespBody)
  | redirect (target : String)
  | file (name : String)
deriving DecidableEq

/-- Lift one handler outcome into a pipeline response. -/
def respToResponse {α : Type} (f : α → RespBody) : Resp α → Response
  | .ok v => .json 200 (f v)
  | .err s m => .json s (.errMsg m)

/-- JSON shape of the `familyBySr` payload (lines 190-193). -/
def famPayload : Option (Family × List Member) → RespBody
  | none => .familyNotFound
  | some (f, ms) => .familyFound f ms

/-- Does `app.use('/api', ...)` match this path? -/
def isApiMount (path : String) : Bool :=
  path == "/api" || startsWithStr "/api/" path

/-- `req.path` inside the `/api` mount (Express strips the mount prefix). -/
def apiSub (path : String) : String :=
  if path == "/api" then "/" else String.mk (path.data.drop 4)

/-- The layers after the `/api` gate, in registration order: the five GET
API routes (152-241), `express.static` over `public/` (244, modelled by
the list `publicFiles` of paths a static asset exists at), the `/` route
(247-252), and the SPA fallback (255-263). -/
def routeRest (pool : Option DB) (queryFails : Bool)
    (publicFiles : List String) (sess : Option UserInfo) (req : GetReq) :
    Response :=
  if req.path == "/api/allFamilies" then
    respToResponse RespBody.familiesList (allFamilies pool queryFails)
  else if req.path == "/api/allMembers" then
    respToResponse RespBody.membersList (allMembers pool queryFails)
  else if req.path == "/api/familyBySr" then
    respToResponse famPayload (familyBySr pool queryFails req.sr)
  else if req.path == "/api/memberByName" then
    respToResponse RespBody.membersList (memberByName pool queryFails req.q)
  else if req.path == "/api/familiesByHead" then
    respToResponse RespBody.familiesList (familiesByHead pool queryFails req.q)
  else if publicFiles.contains req.path then .file req.path
  else if req.path == "/" then
    if isAuthed sess then .file "index.html" else .redirect "/login.html"
  else if startsWithStr "/api/" req.path || startsWithStr "/ping" req.path then
    .json 404 (.errMsg "API endpoint not found")
  else if isAuthed sess then .file "index.html"
  else .file "login.html"

/-- The whole pipeline for one GET request, in the source's registration
order: basic-auth filter (15-28), session resolution (60-71), the `/ping`
route (91), the `/api` gate (144-148), then `routeRest`.  `now` is
`Date.now()` at the instant the ping handler runs. -/
def handleGet (cfg : Option (String × String)) (store : SessionStore)
    (pool : Option DB) (queryFails : Bool) (publicFiles : List String)
    (now : Nat) (req : GetReq) : Response :=
  if !(basicAuthPass cfg req.authDecoded) then .basicAuthRequired
  else if req.path == "/ping" then .json 200 (.pingBody now)
  else if isApiMount req.path then
    match apiGate (req.sessionTok.bind (lookupSess store)) (apiSub req.path)
        req.accept with
    | .allow =>
      routeRest pool queryFails publicFiles
        (req.sessionTok.bind (lookupSess store)) req
    | .deny401Json => .json 401 (.errMsg "Not authenticated")
    | .denyRedirect t => .redirect t
  else
    routeRest pool queryFails publicFiles
      (req.sessionTok.bind (lookupSess store)) req

/-! ## Session-lifecycle traces (for the logout claim) -/

/-- One later session-store mutation: a login issued a token, or a logout
destroyed one.  Read-only requests leave the store unchanged and need no
constructor. -/
inductive SessOp where
  | opLogin (tok : Nat) (username password : Option String)
  | opLogout (tok : Nat)
deriving DecidableEq

/-- Does an operation mint this token? (express-session never reuses a
destroyed sid, so later logins carry fresh tokens.) -/
def SessOp.mintsTok : SessOp → Nat → Bool
  | .opLogin t _ _, tok => t == tok
  | .opLogout _, _ => false

/-- Apply one operation to the store. -/
def applyOp (store : SessionStore) : SessOp → SessionStore
  | .opLogin t u p => (login store t u p).1
  | .opLogout t => (logout false store t).1

/-- Apply a trace of operations, oldest first. -/
def runOps (store : SessionStore) (ops : List SessOp) : SessionStore :=
  ops.foldl applyOp store

/-! ## Helper lemmas -/

/-- A validated `sr` reaches the query unchanged. -/
theorem familyBySr_eq_core (db : DB) (qf : Bool) (sr : String)
    (htrim : jsTrim sr = sr) (hne : sr ≠ "") :
    familyBySr (some db) qf (some sr) =
      if qf then .err 500 "server error" else .ok (familyBySrCore db sr) := by
  simp only [familyBySr, Option.getD_some, htrim]
  rw [if_neg (by simpa using hne)]

/-- A validated `q` reaches the member-name query unchanged. -/
theorem memberByName_eq_core (db : DB) (qf : Bool) (q : String)
    (htrim : jsTrim q = q) (hne : q ≠ "") :
    memberByName (some db) qf (some q) =
      if qf then .err 500 "server error" else .ok (memberByNameQuery db q) := by
  simp only [memberByName, Option.getD_some, htrim]
  rw [if_neg (by simpa using hne)]

/-- A validated `q` reaches the head-of-family query unchanged. -/
theorem familiesByHead_eq_core (db : DB) (qf : Bool) (q : String)
    (htrim : jsTrim q = q) (hne : q ≠ "") :
    familiesByHead (some db) qf (some q) =
      if qf then .err 500 "server error" else .ok (familiesByHeadQuery db q) := by
  simp only [familiesByHead, Option.getD_some, htrim]
  rw [if_neg (by simpa using hne)]

/-- No session is found exactly when no stored entry carries the token. -/
theorem lookupSess_eq_none_iff (s : SessionStore) (tok : Nat) :
    lookupSess s tok = none ↔ ∀ e ∈ s, e.1 ≠ tok := by
  simp [lookupSess, List.find?_eq_none]

/-! ## C1: familyBySr -/

/-- C1: for every non-empty serial `sr` (already in trimmed form),
`familyBySr` answers `found:true` with a family and members exactly when a
family row with `family_sr_no = sr` exists; the returned family is such a
row, and `members` is exactly the set of member rows whose `family_id`
matches that family's identity, ordered by `sr_no_in_family` ascending.
With no such family the answer is `found:false` with HTTP 200, and a
missing `sr` is a 400. -/
theorem familyBySr_correct (db : DB) (sr : String)
    (htrim : jsTrim sr = sr) (hne : sr ≠ "") :
    familyBySr (some db) false none = .err 400 "missing sr"
    ∧ (∀ fam ms,
        familyBySr (some db) false (some sr) = .ok (some (fam, ms)) →
        fam ∈ db.families ∧ fam.family_sr_no = sr
        ∧ ms.Perm (db.members.filter fun m => m.family_id == fam.family_id)
        ∧ List.Sorted (keyLe Member.sr_no_in_family) ms)
    ∧ ((∃ f ∈ db.families, f.family_sr_no = sr) ↔
        ∃ fam ms, familyBySr (some db) false (some sr) = .ok (some (fam, ms)))
    ∧ ((∀ f ∈ db.families, f.family_sr_no ≠ sr) →
        familyBySr (some db) false (some sr) = .ok none
        ∧ (familyBySr (some db) false (some sr)).statusCode = 200) := by
  have hcore : familyBySr (some db) false (some sr) =
      .ok (familyBySrCore db sr) := by
    simpa using familyBySr_eq_core db false sr htrim hne
  refine ⟨by simp [familyBySr, jsTrim], ?_, ?_, ?_⟩
  · intro fam ms h
    rw [hcore] at h
    unfold familyBySrCore at h
    rcases hfil : db.families.filter (fun f => f.family_sr_no == sr) with
      _ | ⟨f, rest⟩
    · rw [hfil] at h; simp at h
    · rw [hfil] at h
      simp only [Resp.ok.injEq, Option.some.injEq, Prod.mk.injEq] at h
      obtain ⟨hf, hms⟩ := h
      have hfmem : f ∈ db.families.filter (fun f => f.family_sr_no == sr) := by
        rw [hfil]; exact List.mem_cons_self f rest
      rw [List.mem_filter] at hfmem
      subst hf
      refine ⟨hfmem.1, by simpa using hfmem.2, ?_, ?_⟩
      · rw [← hms]; exact List.perm_insertionSort _ _
      · rw [← hms]; exact List.sorted_insertionSort _ _
  · constructor
    · rintro ⟨f, hf, hsr⟩
      rw [hcore]
      unfold familyBySrCore
      rcases hfil : db.families.filter (fun f => f.family_sr_no == sr) with
        _ | ⟨g, rest⟩
      · exfalso
        have := List.filter_eq_nil_iff.mp hfil f hf
        simp [hsr] at this
      · rw [hfil]
        exact ⟨g, _, rfl⟩
    · rintro ⟨fam, ms, h⟩
      rw [hcore] at h
      unfold familyBySrCore at h
      rcases hfil : db.families.filter (fun f => f.family_sr_no == sr) with
        _ | ⟨g, rest⟩
      · rw [hfil] at h; simp at h
      · have hgmem : g ∈ db.families.filter (fun f => f.family_sr_no == sr) := by
          rw [hfil]; exact List.mem_cons_self g rest
        rw [List.mem_filter] at hgmem
        exact ⟨g, hgmem.1, by simpa using hgmem.2⟩
  · intro hnone
    have hfil : db.families.filter (fun f => f.family_sr_no == sr) = [] := by
      rw [List.filter_eq_nil_iff]
      intro f hf
      simpa using hnone f hf
    rw [hcore]
    unfold familyBySrCore
    rw [hfil]
    exact ⟨rfl, rfl⟩

/-- Witness for C1 at a concrete database and serial. -/
theorem familyBySr_correct_witness :
    familyBySr (some ⟨[⟨1, "F1", "Doe", "John Doe", "st", "z1", "123"⟩],
        [⟨1, 2, "Jane Doe"⟩, ⟨1, 1, "John Doe"⟩]⟩) false none =
      .err 400 "missing sr"
    ∧ (∀ fam ms,
        familyBySr (some ⟨[⟨1, "F1", "Doe", "John Doe", "st", "z1", "123"⟩],
          [⟨1, 2, "Jane Doe"⟩, ⟨1, 1, "John Doe"⟩]⟩) false (some "F1") =
          .ok (some (fam, ms)) →
        fam ∈ [⟨1, "F1", "Doe", "John Doe", "st", "z1", "123"⟩]
        ∧ fam.family_sr_no = "F1"
        ∧ ms.Perm ([⟨1, 2, "Jane Doe"⟩, ⟨1, 1, "John Doe"⟩].filter
            fun m : Member => m.family_id == fam.family_id)
        ∧ List.Sorted (keyLe Member.sr_no_in_family) ms)
    ∧ ((∃ f ∈ [⟨1, "F1", "Doe", "John Doe", "st", "z1", "123"⟩],
          Family.family_sr_no f = "F1") ↔
        ∃ fam ms,
          familyBySr (some ⟨[⟨1, "F1", "Doe", "John Doe", "st", "z1", "123"⟩],
            [⟨1, 2, "Jane Doe"⟩, ⟨1, 1, "John Doe"⟩]⟩) false (some "F1") =
            .ok (some (fam, ms)))
    ∧ ((∀ f ∈ [⟨1, "F1", "Doe", "John Doe", "st", "z1", "123"⟩],
          Family.family_sr_no f ≠ "F1") →
        familyBySr (some ⟨[⟨1, "F1", "Doe", "John Doe", "st", "z1", "123"⟩],
          [⟨1, 2, "Jane Doe"⟩, ⟨1, 1, "John Doe"⟩]⟩) false (some "F1") =
          .ok none
        ∧ (familyBySr (some ⟨[⟨1, "F1", "Doe", "John Doe", "st", "z1", "123"⟩],
          [⟨1, 2, "Jane Doe"⟩, ⟨1, 1, "John Doe"⟩]⟩) false
            (some "F1")).statusCode = 200) :=
  familyBySr_correct _ "F1" (by decide) (by decide)
/-! ## C2: memberByName -/

/-- Any-position congruence for `List.any` (helper). -/
theorem any_congr_mem {α : Type} (l : List α) (f g : α → Bool)
    (h : ∀ x ∈ l, f x = g x) : l.any f = l.any g := by
  induction l with
  | nil => rfl
  | cons a as ih =>
    rw [List.any_cons, List.any_cons, h a (List.mem_cons_self _ _),
      ih fun x hx => h x (List.mem_cons_of_mem _ hx)]

/-- Some suffix of every list is empty (helper for the trailing `%`). -/
theorem tails_any_isEmpty (s : List Char) :
    (List.tails s).any (fun t => t.isEmpty) = true := by
  induction s with
  | nil => rfl
  | cons c cs ih =>
    rw [List.tails_cons, List.any_cons, ih]
    simp

/-- A wildcard-free pattern followed by `%` matches a string iff the
string starts with the pattern, case-folded. -/
theorem likeMatchCI_free_pct (qs : List Char)
    (hw : ∀ c ∈ qs, ¬c = '%' ∧ ¬c = '_') (s : List Char) :
    likeMatchCI (qs ++ ['%']) s =
      isPre (qs.map Char.toLower) (s.map Char.toLower) := by
  induction qs generalizing s with
  | nil =>
    simp only [List.nil_append, List.map_nil, likeMatchCI]
    rw [if_pos (by decide)]
    rw [tails_any_isEmpty s]
    rfl
  | cons c qs ih =>
    obtain ⟨hc1, hc2⟩ := hw c (List.mem_cons_self _ _)
    have hw2 : ∀ x ∈ qs, ¬x = '%' ∧ ¬x = '_' :=
      fun x hx => hw x (List.mem_cons_of_mem _ hx)
    have hb1 : (c == '%') = false := by simpa using hc1
    have hb2 : (c == '_') = false := by simpa using hc2
    cases s with
    | nil =>
      simp only [List.cons_append, likeMatchCI, hb1, hb2, List.map_cons,
        List.map_nil, Bool.false_eq_true, if_false]
      rfl
    | cons c2 s2 =>
      simp only [List.cons_append, likeMatchCI, hb1, hb2, List.map_cons,
        Bool.false_eq_true, if_false]
      show (c.toLower == c2.toLower && likeMatchCI (qs ++ ['%']) s2) = _
      rw [ih hw2 s2]
      rfl

/-- Searching every suffix for a case-folded match of a needle is
contiguous-sublist containment of the needle in the case-folded string. -/
theorem tails_any_isPre (n : List Char) (s : List Char) :
    (List.tails s).any (fun t => isPre n (t.map Char.toLower)) =
      hasSub n (s.map Char.toLower) := by
  induction s with
  | nil =>
    have ht : List.tails ([] : List Char) = [[]] := rfl
    rw [ht, List.any_cons, List.any_nil]
    simp [hasSub]
  | cons c cs ih =>
    rw [List.tails_cons, List.any_cons, ih, List.map_cons]
    rfl

/-- For a wildcard-free query, the spliced pattern `%q%` matches a string
iff the case-folded string contains the case-folded query contiguously. -/
theorem likeMatchCI_pct_free_pct (qs : List Char)
    (hw : ∀ c ∈ qs, ¬c = '%' ∧ ¬c = '_') (s : List Char) :
    likeMatchCI ('%' :: (qs ++ ['%'])) s =
      hasSub (qs.map Char.toLower) (s.map Char.toLower) := by
  have h1 : likeMatchCI ('%' :: (qs ++ ['%'])) s =
      (List.tails s).any
        (fun t => isPre (qs.map Char.toLower) (t.map Char.toLower)) := by
    simp only [likeMatchCI]
    rw [if_pos (by decide)]
    exact any_congr_mem _ _ _ fun t _ => likeMatchCI_free_pct qs hw t
  rw [h1, tails_any_isPre]

/-- For a query free of the LIKE wildcard and escape characters, the
faithful `LIKE '%q%'` semantics and the literal case-insensitive
substring reading agree. -/
theorem likeParamContains_eq_ciContains (q : String)
    (hw : likeWildcardFree q = true) (hay : String) :
    likeParamContains q hay = ciContains q hay := by
  have hw2 : ∀ c ∈ q.data, ¬c = '%' ∧ ¬c = '_' := by
    intro c hc
    have h := List.all_eq_true.mp hw c hc
    simp at h
    tauto
  exact likeMatchCI_pct_free_pct q.data hw2 hay.data

/-- C2 counterexample: the handler splices the unescaped query into the
LIKE pattern, so `q = "%"` makes the pattern `%%%`, which matches every
row: with one member named `John Doe` (a name containing no `%`), the
query `%` returns that row even though its name does not contain `%` as
a substring, case-insensitively or otherwise. -/
theorem memberByName_wildcard_cex :
    memberByName (some ⟨[⟨1, "F1", "Doe", "John Doe", "st", "z1", "123"⟩],
        [⟨1, 1, "John Doe"⟩]⟩) false (some "%") =
      .ok [(⟨1, 1, "John Doe"⟩,
        ⟨1, "F1", "Doe", "John Doe", "st", "z1", "123"⟩)]
    ∧ ciContains "%" "John Doe" = false :=
  ⟨by decide, by decide⟩

/-- C2 as amended: for every non-empty query `q` (already in trimmed
form), `memberByName` returns exactly the joined member rows whose
`full_name` matches the MySQL LIKE pattern `%q%` case-insensitively —
`q` is spliced into the pattern unescaped, so `%` and `_` inside it act
as wildcards — capped at 500 rows, ordered by
`(family_id, sr_no_in_family)` ascending, and every returned row also
appears in the result of `allMembers`; for `q` free of the wildcard and
escape characters the match coincides with "contains `q` as a
case-insensitive substring". -/
theorem memberByName_like_correct (db : DB) (q : String)
    (htrim : jsTrim q = q) (hne : q ≠ "") :
    memberByName (some db) false (some q) = .ok (memberByNameQuery db q)
    ∧ (memberByNameQuery db q).length ≤ 500
    ∧ List.Sorted
        (lexLe (fun r : Member × Family => r.2.family_id)
          (fun r => r.1.sr_no_in_family)) (memberByNameQuery db q)
    ∧ (∀ r ∈ memberByNameQuery db q,
        likeParamContains q r.1.full_name = true ∧ r ∈ joinedRows db)
    ∧ (((joinedRows db).filter
          fun r => likeParamContains q r.1.full_name).length ≤ 500 →
        (memberByNameQuery db q).Perm
          ((joinedRows db).filter fun r => likeParamContains q r.1.full_name))
    ∧ allMembers (some db) false = .ok (allMembersQuery db)
    ∧ (∀ r ∈ memberByNameQuery db q, r ∈ allMembersQuery db)
    ∧ (likeWildcardFree q = true →
        (joinedRows db).filter (fun r => likeParamContains q r.1.full_name) =
          (joinedRows db).filter (fun r => ciContains q r.1.full_name)) := by
  have hmem : ∀ r ∈ memberByNameQuery db q,
      likeParamContains q r.1.full_name = true ∧ r ∈ joinedRows db := by
    intro r hr
    unfold memberByNameQuery at hr
    have h1 : r ∈ List.insertionSort
        (lexLe (fun r : Member × Family => r.2.family_id)
          (fun r => r.1.sr_no_in_family))
        ((joinedRows db).filter fun r => likeParamContains q r.1.full_name) :=
      (List.take_sublist 500 _).mem hr
    have h2 := (List.perm_insertionSort _ _).mem_iff.mp h1
    rw [List.mem_filter] at h2
    exact ⟨h2.2, h2.1⟩
  refine ⟨by simpa using memberByName_eq_core db false q htrim hne,
    List.length_take_le 500 _,
    List.Pairwise.sublist (List.take_sublist 500 _)
      (List.sorted_insertionSort _ _),
    hmem, ?_, rfl, ?_, ?_⟩
  · intro hlen
    unfold memberByNameQuery
    have hl2 : (List.insertionSort
        (lexLe (fun r : Member × Family => r.2.family_id)
          (fun r => r.1.sr_no_in_family))
        ((joinedRows db).filter
          fun r => likeParamContains q r.1.full_name)).length ≤ 500 := by
      rw [(List.perm_insertionSort _ _).length_eq]
      exact hlen
    rw [List.take_of_length_le hl2]
    exact List.perm_insertionSort _ _
  · intro r hr
    exact (List.perm_insertionSort _ _).mem_iff.mpr (hmem r hr).2
  · intro hw
    exact List.filter_congr
      fun r _ => likeParamContains_eq_ciContains q hw r.1.full_name

/-- Witness for C2 (amended) at a concrete database and a wildcard-free
query. -/
theorem memberByName_like_correct_witness :
    memberByName (some ⟨[⟨1, "F1", "Doe", "John Doe", "st", "z1", "123"⟩],
        [⟨1, 2, "Jane Doe"⟩, ⟨1, 1, "John Doe"⟩]⟩) false (some "doe") =
      .ok (memberByNameQuery ⟨[⟨1, "F1", "Doe", "John Doe", "st", "z1",
        "123"⟩], [⟨1, 2, "Jane Doe"⟩, ⟨1, 1, "John Doe"⟩]⟩ "doe")
    ∧ (memberByNameQuery ⟨[⟨1, "F1", "Doe", "John Doe", "st", "z1", "123"⟩],
        [⟨1, 2, "Jane Doe"⟩, ⟨1, 1, "John Doe"⟩]⟩ "doe").length ≤ 500
    ∧ List.Sorted
        (lexLe (fun r : Member × Family => r.2.family_id)
          (fun r => r.1.sr_no_in_family))
        (memberByNameQuery ⟨[⟨1, "F1", "Doe", "John Doe", "st", "z1", "123"⟩],
          [⟨1, 2, "Jane Doe"⟩, ⟨1, 1, "John Doe"⟩]⟩ "doe")
    ∧ (∀ r ∈ memberByNameQuery ⟨[⟨1, "F1", "Doe", "John Doe", "st", "z1",
          "123"⟩], [⟨1, 2, "Jane Doe"⟩, ⟨1, 1, "John Doe"⟩]⟩ "doe",
        likeParamContains "doe" r.1.full_name = true
        ∧ r ∈ joinedRows ⟨[⟨1, "F1", "Doe", "John Doe", "st", "z1", "123"⟩],
            [⟨1, 2, "Jane Doe"⟩, ⟨1, 1, "John Doe"⟩]⟩)
    ∧ (((joinedRows ⟨[⟨1, "F1", "Doe", "John Doe", "st", "z1", "123"⟩],
          [⟨1, 2, "Jane Doe"⟩, ⟨1, 1, "John Doe"⟩]⟩).filter
            fun r => likeParamContains "doe" r.1.full_name).length ≤ 500 →
        (memberByNameQuery ⟨[⟨1, "F1", "Doe", "John Doe", "st", "z1", "123"⟩],
          [⟨1, 2, "Jane Doe"⟩, ⟨1, 1, "John Doe"⟩]⟩ "doe").Perm
          ((joinedRows ⟨[⟨1, "F1", "Doe", "John Doe", "st", "z1", "123"⟩],
            [⟨1, 2, "Jane Doe"⟩, ⟨1, 1, "John Doe"⟩]⟩).filter
              fun r => likeParamContains "doe" r.1.full_name))
    ∧ allMembers (some ⟨[⟨1, "F1", "Doe", "John Doe", "st", "z1", "123"⟩],
        [⟨1, 2, "Jane Doe"⟩, ⟨1, 1, "John Doe"⟩]⟩) false =
      .ok (allMembersQuery ⟨[⟨1, "F1", "Doe", "John Doe", "st", "z1", "123"⟩],
        [⟨1, 2, "Jane Doe"⟩, ⟨1, 1, "John Doe"⟩]⟩)
    ∧ (∀ r ∈ memberByNameQuery ⟨[⟨1, "F1", "Doe", "John Doe", "st", "z1",
        "123"⟩], [⟨1, 2, "Jane Doe"⟩, ⟨1, 1, "John Doe"⟩]⟩ "doe",
      r ∈ allMembersQuery ⟨[⟨1, "F1", "Doe", "John Doe", "st", "z1", "123"⟩],
        [⟨1, 2, "Jane Doe"⟩, ⟨1, 1, "John Doe"⟩]⟩)
    ∧ (likeWildcardFree "doe" = true →
        (joinedRows ⟨[⟨1, "F1", "Doe", "John Doe", "st", "z1", "123"⟩],
          [⟨1, 2, "Jane Doe"⟩, ⟨1, 1, "John Doe"⟩]⟩).filter
            (fun r => likeParamContains "doe" r.1.full_name) =
          (joinedRows ⟨[⟨1, "F1", "Doe", "John Doe", "st", "z1", "123"⟩],
            [⟨1, 2, "Jane Doe"⟩, ⟨1, 1, "John Doe"⟩]⟩).filter
              (fun r => ciContains "doe" r.1.full_name)) :=
  memberByName_like_correct _ "doe" (by decide) (by decide)

/-! ## C3: login -/

/-- A JS-falsy username or password short-circuits to the 400 error. -/
theorem login_missing (store : SessionStore) (tok : Nat) (u p : Option String)
    (h : (jsFalsyStr u || jsFalsyStr p) = true) :
    login store tok u p = (store, .missingFields) := by
  unfold login
  rw [if_pos h]

/-- The configured credential pair logs in and prepends one session. -/
theorem login_success_eq (store : SessionStore) (tok : Nat) :
    login store tok (some "admin") (some "ian.rdr4") =
      ((tok, ⟨"admin", "admin"⟩) :: store, .success "/") := rfl

/-- A present but wrong pair is rejected with 401 and no session. -/
theorem login_unauthorized_eq (store : SessionStore) (tok : Nat)
    (u p : Option String) (hf : (jsFalsyStr u || jsFalsyStr p) = false)
    (hm : (u == some "admin" && p == some "ian.rdr4") = false) :
    login store tok u p = (store, .unauthorized) := by
  unfold login
  rw [if_neg (by simp [hf]), if_neg (by simp [hm])]

/-- C3: `login` creates a session iff the submitted pair equals the single
hardcoded credential `(admin, ian.rdr4)`: on match it prepends exactly one
new session to the store and answers success with the redirect target `/`;
with a missing (JS-falsy) username or password it answers the 400
missing-fields error, and with any other pair the 401 unauthorized error;
in both failure cases the store is unchanged. -/
theorem login_correct (store : SessionStore) (tok : Nat)
    (u p : Option String) :
    ((login store tok u p).2 = .success "/" ↔
      u = some "admin" ∧ p = some "ian.rdr4")
    ∧ (u = some "admin" → p = some "ian.rdr4" →
        login store tok u p =
          ((tok, ⟨"admin", "admin"⟩) :: store, .success "/"))
    ∧ ((jsFalsyStr u || jsFalsyStr p) = true →
        login store tok u p = (store, .missingFields)
        ∧ LoginRes.missingFields.statusCode = 400)
    ∧ ((jsFalsyStr u || jsFalsyStr p) = false →
        ¬(u = some "admin" ∧ p = some "ian.rdr4") →
        login store tok u p = (store, .unauthorized)
        ∧ LoginRes.unauthorized.statusCode = 401) := by
  refine ⟨?_, ?_, ?_, ?_⟩
  · constructor
    · intro h
      by_cases hf : (jsFalsyStr u || jsFalsyStr p) = true
      · rw [login_missing store tok u p hf] at h
        exact absurd h (by simp)
      · rw [Bool.not_eq_true] at hf
        by_cases hu : u = some "admin"
        · by_cases hp : p = some "ian.rdr4"
          · exact ⟨hu, hp⟩
          · rw [login_unauthorized_eq store tok u p hf
              (by simp [beq_iff_eq, hp])] at h
            exact absurd h (by simp)
        · rw [login_unauthorized_eq store tok u p hf
            (by simp [beq_iff_eq, hu])] at h
          exact absurd h (by simp)
    · rintro ⟨hu, hp⟩
      subst hu; subst hp
      rw [login_success_eq]
  · intro hu hp
    subst hu; subst hp
    exact login_success_eq store tok
  · intro hf
    exact ⟨login_missing store tok u p hf, rfl⟩
  · intro hf hm
    have hu : (u == some "admin" && p == some "ian.rdr4") = false := by
      by_cases hu : u = some "admin"
      · by_cases hp : p = some "ian.rdr4"
        · exact absurd ⟨hu, hp⟩ hm
        · simp [beq_iff_eq, hp]
      · simp [beq_iff_eq, hu]
    exact ⟨login_unauthorized_eq store tok u p hf hu, rfl⟩

/-- Witness for C3 at a concrete store, token and the configured pair. -/
theorem login_correct_witness :
    ((login [] 7 (some "admin") (some "ian.rdr4")).2 = .success "/" ↔
      some "admin" = some "admin" ∧ some "ian.rdr4" = some "ian.rdr4")
    ∧ (some "admin" = some "admin" → some "ian.rdr4" = some "ian.rdr4" →
        login [] 7 (some "admin") (some "ian.rdr4") =
          ((7, ⟨"admin", "admin"⟩) :: [], .success "/"))
    ∧ ((jsFalsyStr (some "admin") || jsFalsyStr (some "ian.rdr4")) = true →
        login [] 7 (some "admin") (some "ian.rdr4") = ([], .missingFields)
        ∧ LoginRes.missingFields.statusCode = 400)
    ∧ ((jsFalsyStr (some "admin") || jsFalsyStr (some "ian.rdr4")) = false →
        ¬(some "admin" = some "admin" ∧ some "ian.rdr4" = some "ian.rdr4") →
        login [] 7 (some "admin") (some "ian.rdr4") = ([], .unauthorized)
        ∧ LoginRes.unauthorized.statusCode = 401) :=
  login_correct [] 7 (some "admin") (some "ian.rdr4")

/-! ## C8: logout -/

/-- C8: with the in-memory store (whose destroy callback never reports an
error) `logout` destroys the session identified by the presented token,
clears the cookie and answers `200 {ok:true}`; it is idempotent: when the
store holds no session for the token, the store is unchanged and the
response is the same success. -/
theorem logout_spec (store : SessionStore) (tok : Nat) :
    (logout false store tok).2 = ⟨200, true, true⟩
    ∧ lookupSess (logout false store tok).1 tok = none
    ∧ (lookupSess store tok = none → (logout false store tok).1 = store) := by
  refine ⟨rfl, ?_, ?_⟩
  · rw [lookupSess_eq_none_iff]
    intro e he
    have he' : e ∈ store.filter (fun x => !(x.1 == tok)) := he
    simpa using (List.mem_filter.mp he').2
  · intro h
    rw [lookupSess_eq_none_iff] at h
    show store.filter _ = store
    rw [List.filter_eq_self]
    intro e he
    simpa using h e he

/-! ## C6: a destroyed token stays invalid -/

/-- An absent token stays absent under any later trace of logins minting
other tokens and logouts. -/
theorem runOps_lookup_none (ops : List SessOp) (s : SessionStore) (tok : Nat)
    (h : lookupSess s tok = none)
    (hfresh : ∀ op ∈ ops, op.mintsTok tok = false) :
    lookupSess (runOps s ops) tok = none := by
  induction ops generalizing s with
  | nil => exact h
  | cons op rest ih =>
    have hstep : lookupSess (applyOp s op) tok = none := by
      cases op with
      | opLogin t u pw =>
        have ht : t ≠ tok := by
          have := hfresh _ (List.mem_cons_self _ _)
          simpa [SessOp.mintsTok] using this
        have hgoal : lookupSess (login s t u pw).1 tok = none := by
          unfold login
          by_cases hb : (jsFalsyStr u || jsFalsyStr pw) = true
          · rw [if_pos hb]
            exact h
          · rw [if_neg hb]
            by_cases hc : (u == some "admin" && pw == some "ian.rdr4") = true
            · rw [if_pos hc]
              show lookupSess ((t, ⟨"admin", "admin"⟩) :: s) tok = none
              rw [lookupSess_eq_none_iff]
              intro e he
              rcases List.mem_cons.mp he with rfl | he'
              · exact ht
              · exact (lookupSess_eq_none_iff s tok).mp h e he'
            · rw [if_neg hc]
              exact h
        exact hgoal
      | opLogout t =>
        have hgoal : lookupSess (s.filter fun e => !(e.1 == t)) tok = none := by
          rw [lookupSess_eq_none_iff]
          intro e he
          exact (lookupSess_eq_none_iff s tok).mp h e (List.mem_of_mem_filter he)
        exact hgoal
    exact ih _ hstep fun op hop => hfresh op (List.mem_cons_of_mem _ hop)

/-- C6: after `logout` destroys the session of a token, that token is
denied by the `/api` authorization gate for every protected subpath
(anything but the login, logout and health-check bypasses), on every
subsequent request: no later trace of fresh-token logins and logouts makes
the gate pass it again. -/
theorem logout_denies_token (store : SessionStore) (tok : Nat)
    (ops : List SessOp)
    (hfresh : ∀ op ∈ ops, op.mintsTok tok = false)
    (sub : String) (accept : Option String)
    (h1 : sub ≠ "/login") (h2 : sub ≠ "/logout") (h3 : sub ≠ "/ping") :
    lookupSess (runOps (logout false store tok).1 ops) tok = none
    ∧ apiGate (lookupSess (runOps (logout false store tok).1 ops) tok)
        sub accept ≠ .allow := by
  have hnone : lookupSess (runOps (logout false store tok).1 ops) tok =
      none :=
    runOps_lookup_none ops _ tok (logout_spec store tok).2.1 hfresh
  refine ⟨hnone, ?_⟩
  rw [hnone]
  unfold apiGate requireAuth
  rw [if_neg (by simpa using And.intro h1 h2)]
  rw [if_neg (by simpa using h3)]
  simp only [isAuthed, Bool.false_eq_true, if_false]
  split <;> simp

/-- Witness for C6 at a concrete store, token and later trace. -/
theorem logout_denies_token_witness :
    lookupSess (runOps (logout false [(5, ⟨"admin", "admin"⟩)] 5).1
      [.opLogin 7 (some "admin") (some "ian.rdr4"), .opLogout 9]) 5 = none
    ∧ apiGate (lookupSess (runOps (logout false [(5, ⟨"admin", "admin"⟩)] 5).1
        [.opLogin 7 (some "admin") (some "ian.rdr4"), .opLogout 9]) 5)
        "/allFamilies" none ≠ .allow :=
  logout_denies_token [(5, ⟨"admin", "admin"⟩)] 5
    [.opLogin 7 (some "admin") (some "ian.rdr4"), .opLogout 9]
    (by decide) "/allFamilies" none (by decide) (by decide) (by decide)

/-! ## C5: ping -/

/-- C5 counterexample: with a basic-auth pair configured and no
credential presented, `GET /ping` is blocked by the basic-auth filter
with `401 'Auth required'`, not answered `{ok:true, ts}`. -/
theorem ping_blocked_by_basic_auth :
    handleGet (some ("u", "p")) [] none false [] 42
      ⟨"/ping", none, none, none, none, none⟩ = .basicAuthRequired
    ∧ Response.basicAuthRequired ≠ .json 200 (.pingBody 42) :=
  ⟨by decide, by decide⟩

/-- C5 as amended: every `GET /ping` request that passes the basic-auth
filter (in particular every request when no basic-auth pair is
configured) is answered `{ok:true, ts}` regardless of session state,
session store contents and store-pool availability. -/
theorem ping_ok (cfg : Option (String × String)) (store : SessionStore)
    (pool : Option DB) (qf : Bool) (files : List String) (now : Nat)
    (req : GetReq) (hb : basicAuthPass cfg req.authDecoded = true)
    (hpath : req.path = "/ping") :
    handleGet cfg store pool qf files now req = .json 200 (.pingBody now) := by
  unfold handleGet
  rw [hb, hpath]
  simp

/-- Witness for C5: ping with no basic auth, no session and no pool. -/
theorem ping_ok_witness :
    handleGet none [] none false [] 42 ⟨"/ping", none, none, none, none, none⟩
      = .json 200 (.pingBody 42) :=
  ping_ok none [] none false [] 42 ⟨"/ping", none, none, none, none, none⟩
    (by decide) (by decide)

/-! ## C4: denial shape of the session gate -/

/-- C4 counterexample: an unauthenticated request to the API-prefixed path
`/api/allFamilies` with no `Accept: application/json` header is denied
with a redirect to the login page, not with a structured 401 JSON error. -/
theorem api_denial_not_structured :
    handleGet none [] none false [] 0
      ⟨"/api/allFamilies", none, none, none, none, none⟩ =
      .redirect "/login.html"
    ∧ Response.redirect "/login.html" ≠
      .json 401 (.errMsg "Not authenticated") :=
  ⟨by decide, by decide⟩

/-- C4 as amended: the session gate only guards API-prefixed paths, and
the shape of its denial is decided by the `Accept` header alone, not by
the path: an unauthenticated request whose `Accept` header declares
`application/json` receives the structured 401 JSON error, and every
other unauthenticated request — API-prefixed paths included — receives a
redirect to the login page with no error body. -/
theorem gate_denial_by_accept (cfg : Option (String × String))
    (store : SessionStore) (pool : Option DB) (qf : Bool)
    (files : List String) (now : Nat) (req : GetReq)
    (hb : basicAuthPass cfg req.authDecoded = true)
    (hapi : isApiMount req.path = true)
    (hs1 : apiSub req.path ≠ "/login") (hs2 : apiSub req.path ≠ "/logout")
    (hs3 : apiSub req.path ≠ "/ping")
    (hna : isAuthed (req.sessionTok.bind (lookupSess store)) = false) :
    (jsonAccept req.accept = true →
      handleGet cfg store pool qf files now req =
        .json 401 (.errMsg "Not authenticated"))
    ∧ (jsonAccept req.accept = false →
      handleGet cfg store pool qf files now req = .redirect "/login.html") := by
  have hping : req.path ≠ "/ping" := by
    intro hcontra
    rw [hcontra] at hapi
    exact absurd hapi (by decide)
  have hgate : apiGate (req.sessionTok.bind (lookupSess store))
      (apiSub req.path) req.accept =
      if jsonAccept req.accept then .deny401Json
      else .denyRedirect "/login.html" := by
    unfold apiGate requireAuth
    rw [if_neg (by simpa using And.intro hs1 hs2)]
    rw [if_neg (by simpa using hs3)]
    rw [hna]
    simp
  have hpingb : (req.path == "/ping") = false := by simpa using hping
  constructor
  · intro hj
    unfold handleGet
    rw [hb, hpingb, hapi, hgate, hj]
    simp
  · intro hj
    unfold handleGet
    rw [hb, hpingb, hapi, hgate, hj]
    simp

/-- Witness for C4 (amended) at a concrete unauthenticated request. -/
theorem gate_denial_by_accept_witness :
    (jsonAccept (some "application/json") = true →
      handleGet none [] none false [] 0
        ⟨"/api/allMembers", some "application/json", none, none, none, none⟩ =
        .json 401 (.errMsg "Not authenticated"))
    ∧ (jsonAccept (some "application/json") = false →
      handleGet none [] none false [] 0
        ⟨"/api/allMembers", some "application/json", none, none, none, none⟩ =
        .redirect "/login.html") :=
  gate_denial_by_accept none [] none false [] 0
    ⟨"/api/allMembers", some "application/json", none, none, none, none⟩
    (by decide) (by decide) (by decide) (by decide) (by decide) (by decide)

/-! ## C7: failure envelopes of the five query operations -/

/-- C7: for all five query operations, a null store pool yields
`500 {error:"DB not connected"}` (for the parameterised operations,
provided their parameter survives validation, which runs first), and a
failing query yields the generic `500 {error:"server error"}` with no
internal detail. -/
theorem failure_envelopes (db : DB) (b : Bool) (sr q : String)
    (hsr : jsTrim sr = sr) (hsrne : sr ≠ "")
    (hq : jsTrim q = q) (hqne : q ≠ "") :
    allFamilies none b = .err 500 "DB not connected"
    ∧ allMembers none b = .err 500 "DB not connected"
    ∧ familyBySr none b (some sr) = .err 500 "DB not connected"
    ∧ memberByName none b (some q) = .err 500 "DB not connected"
    ∧ familiesByHead none b (some q) = .err 500 "DB not connected"
    ∧ allFamilies (some db) true = .err 500 "server error"
    ∧ allMembers (some db) true = .err 500 "server error"
    ∧ familyBySr (some db) true (some sr) = .err 500 "server error"
    ∧ memberByName (some db) true (some q) = .err 500 "server error"
    ∧ familiesByHead (some db) true (some q) = .err 500 "server error" := by
  refine ⟨rfl, rfl, ?_, ?_, ?_, rfl, rfl, ?_, ?_, ?_⟩
  · simp only [familyBySr, Option.getD_some, hsr]
    rw [if_neg (by simpa using hsrne)]
  · simp only [memberByName, Option.getD_some, hq]
    rw [if_neg (by simpa using hqne)]
  · simp only [familiesByHead, Option.getD_some, hq]
    rw [if_neg (by simpa using hqne)]
  · simpa using familyBySr_eq_core db true sr hsr hsrne
  · simpa using memberByName_eq_core db true q hq hqne
  · simpa using familiesByHead_eq_core db true q hq hqne

/-- Witness for C7 at a concrete database and parameters. -/
theorem failure_envelopes_witness :
    allFamilies none true = .err 500 "DB not connected"
    ∧ allMembers none true = .err 500 "DB not connected"
    ∧ familyBySr none true (some "F1") = .err 500 "DB not connected"
    ∧ memberByName none true (some "doe") = .err 500 "DB not connected"
    ∧ familiesByHead none true (some "doe") = .err 500 "DB not connected"
    ∧ allFamilies (some ⟨[], []⟩) true = .err 500 "server error"
    ∧ allMembers (some ⟨[], []⟩) true = .err 500 "server error"
    ∧ familyBySr (some ⟨[], []⟩) true (some "F1") = .err 500 "server error"
    ∧ memberByName (some ⟨[], []⟩) true (some "doe") =
      .err 500 "server error"
    ∧ familiesByHead (some ⟨[], []⟩) true (some "doe") =
      .err 500 "server error" :=
  failure_envelopes ⟨[], []⟩ true "F1" "doe" (by decide) (by decide)
    (by decide) (by decide)

/-! ## C9: unmatched API paths -/

/-- C9 counterexample: an unauthenticated request to the unmatched
API-prefixed path `/api/doesNotExist` is stopped by the session gate and
redirected to the login page; it never reaches the JSON 404 fallback. -/
theorem unmatched_api_denied_first :
    handleGet none [] none false [] 0
      ⟨"/api/doesNotExist", none, none, none, none, none⟩ =
      .redirect "/login.html"
    ∧ Response.redirect "/login.html" ≠
      .json 404 (.errMsg "API endpoint not found") :=
  ⟨by decide, by decide⟩

/-- C9 as amended: every request to a path starting with `/api/` or
`/ping` that matches no defined route, is not shadowed by a static asset,
and passes the session gate (a valid session, or one of the gate's
bypass subpaths `/login`, `/logout`, `/ping`) receives the structured
JSON `404 {error:"API endpoint not found"}`, never an HTML page;
an unauthenticated request to such an API-prefixed path is instead
denied by the gate before the fallback can answer. -/
theorem unmatched_api_404 (cfg : Option (String × String))
    (store : SessionStore) (pool : Option DB) (qf : Bool)
    (files : List String) (now : Nat) (req : GetReq)
    (hb : basicAuthPass cfg req.authDecoded = true)
    (hpre : (startsWithStr "/api/" req.path || startsWithStr "/ping" req.path)
      = true)
    (hr0 : req.path ≠ "/ping")
    (hr1 : req.path ≠ "/api/allFamilies") (hr2 : req.path ≠ "/api/allMembers")
    (hr3 : req.path ≠ "/api/familyBySr") (hr4 : req.path ≠ "/api/memberByName")
    (hr5 : req.path ≠ "/api/familiesByHead")
    (hstatic : files.contains req.path = false)
    (hgate : isApiMount req.path = true →
      isAuthed (req.sessionTok.bind (lookupSess store)) = true
      ∨ apiSub req.path = "/login" ∨ apiSub req.path = "/logout"
      ∨ apiSub req.path = "/ping") :
    handleGet cfg store pool qf files now req =
      .json 404 (.errMsg "API endpoint not found") := by
  have hroot : req.path ≠ "/" := by
    intro hcontra
    rw [hcontra] at hpre
    exact absurd hpre (by decide)
  have hrest : routeRest pool qf files (req.sessionTok.bind (lookupSess store))
      req = .json 404 (.errMsg "API endpoint not found") := by
    unfold routeRest
    rw [if_neg (by simpa using hr1), if_neg (by simpa using hr2),
      if_neg (by simpa using hr3), if_neg (by simpa using hr4),
      if_neg (by simpa using hr5)]
    rw [if_neg (by rw [hstatic]; simp), if_neg (by simpa using hroot),
      if_pos (by simpa using hpre)]
  have hpingb : (req.path == "/ping") = false := by simpa using hr0
  unfold handleGet
  rw [hb, hpingb]
  by_cases hmount : isApiMount req.path = true
  · rw [hmount]
    have hallow : apiGate (req.sessionTok.bind (lookupSess store))
        (apiSub req.path) req.accept = .allow := by
      unfold apiGate requireAuth
      rcases hgate hmount with ha | hl | hl | hl
      · rw [ha]
        split
        · rfl
        · simp
      · rw [if_pos (by simp [hl])]
      · rw [if_pos (by simp [hl])]
      · split
        · rfl
        · rw [if_pos (by simp [hl])]
    rw [hallow]
    simpa using hrest
  · rw [Bool.not_eq_true] at hmount
    rw [hmount]
    simpa using hrest

/-- Witness for C9 (amended) at a concrete authenticated request to an
unmatched API path. -/
theorem unmatched_api_404_witness :
    handleGet none [(1, ⟨"admin", "admin"⟩)] none false [] 0
      ⟨"/api/doesNotExist", none, none, some 1, none, none⟩ =
      .json 404 (.errMsg "API endpoint not found") :=
  unmatched_api_404 none [(1, ⟨"admin", "admin"⟩)] none false [] 0
    ⟨"/api/doesNotExist", none, none, some 1, none, none⟩
    (by decide) (by decide) (by decide) (by decide) (by decide) (by decide)
    (by decide) (by decide) (by decide) (by decide)

/-! ## C10: parameter trimming before every other check -/

/-- C10: for `familyBySr`, `memberByName` and `familiesByHead`, the
`sr`/`q` parameter is trimmed before any other check: an absent or
whitespace-only parameter is rejected with the endpoint's 400
missing-parameter error no matter the pool state (so such a request gets
400, never the 500 pool error), and a parameter surviving the trim is
used in the query in trimmed form. -/
theorem param_trimming (pool : Option DB) (qf : Bool) (s : String) :
    (jsTrim s = "" →
      familyBySr pool qf (some s) = .err 400 "missing sr"
      ∧ memberByName pool qf (some s) = .err 400 "missing q"
      ∧ familiesByHead pool qf (some s) = .err 400 "missing q")
    ∧ familyBySr pool qf none = .err 400 "missing sr"
    ∧ memberByName pool qf none = .err 400 "missing q"
    ∧ familiesByHead pool qf none = .err 400 "missing q"
    ∧ (jsTrim s ≠ "" → ∀ db : DB,
        familyBySr (some db) false (some s) =
          .ok (familyBySrCore db (jsTrim s))
        ∧ memberByName (some db) false (some s) =
          .ok (memberByNameQuery db (jsTrim s))
        ∧ familiesByHead (some db) false (some s) =
          .ok (familiesByHeadQuery db (jsTrim s))) := by
  refine ⟨?_, ?_, ?_, ?_, ?_⟩
  · intro h
    refine ⟨?_, ?_, ?_⟩
    · simp only [familyBySr, Option.getD_some, h]
      rw [if_pos (by simp)]
    · simp only [memberByName, Option.getD_some, h]
      rw [if_pos (by simp)]
    · simp only [familiesByHead, Option.getD_some, h]
      rw [if_pos (by simp)]
  · simp [familyBySr, jsTrim]
  · simp [memberByName, jsTrim]
  · simp [familiesByHead, jsTrim]
  · intro h db
    refine ⟨?_, ?_, ?_⟩
    · simp only [familyBySr, Option.getD_some]
      rw [if_neg (by simpa using h)]
      rfl
    · simp only [memberByName, Option.getD_some]
      rw [if_neg (by simpa using h)]
      rfl
    · simp only [familiesByHead, Option.getD_some]
      rw [if_neg (by simpa using h)]
      rfl
